import Mathlib

/-!
Verification of the real-time distribution subsystem of the
`system-main-v2` application: the identity-resolution cache
(`app/services/user_service.py`), the directory sync worker
(`app/services/user_sync_worker.py`) and the startup / stale-connection
reaper logic (`app/__init__.py`), shallowly embedded in Lean.

Strings are embedded as Lean `String`s; Python truthiness of a string is
emptiness; exceptions are embedded with `Except`; the database, the Redis
tier and the auth service are environment parameters.
-/

namespace SystemMain

/-- The whitespace characters removed by Python's `str.strip()`
(space, tab, newline, carriage return, vertical tab, form feed;
we restrict to the ASCII ones, which is what the application's data uses). -/
def isPySpace (c : Char) : Bool :=
  c == ' ' || c == '\t' || c == '\n' || c == '\r' || c == '\x0b' || c == '\x0c'

/-- Python `str.strip()`: remove leading and trailing whitespace. -/
def pyStrip (s : String) : String :=
  ⟨((s.data.dropWhile isPySpace).reverse.dropWhile isPySpace).reverse⟩

/-- Python `str.lower()` (restricted to ASCII case folding). -/
def pyLower (s : String) : String :=
  ⟨s.data.map Char.toLower⟩

/-- `UserService._normalize` (`app/services/user_service.py`, lines 69–75):
`None` maps to `None`; otherwise strip, reject the empty string and
strings longer than 64 characters, and lowercase the survivor. -/
def normalize (username : Option String) : Option String :=
  match username with
  | none => none
  | some u =>
    let u := pyStrip u
    if u.length = 0 ∨ u.length > 64 then none
    else some (pyLower u)

theorem pyStrip_of_all_space {s : String} (h : ∀ c ∈ s.data, isPySpace c) :
    pyStrip s = "" := by
  unfold pyStrip
  rw [List.dropWhile_eq_nil_iff.2 (fun c hc => h c hc)]
  rfl

theorem pyStrip_length_eq_zero_iff (s : String) :
    (pyStrip s).length = 0 ↔ (pyStrip s) = "" := by
  constructor
  · intro h
    cases hd : (pyStrip s).data with
    | nil =>
      cases hs : pyStrip s with
      | mk l => simp [hs] at hd; simp [hd]
    | cons c cs =>
      exfalso
      have : (pyStrip s).length = (pyStrip s).data.length := rfl
      rw [this, hd] at h
      simp at h
  · intro h; rw [h]; rfl

/-! ## Directory Sync Worker: `sync_all_users`
(`app/services/user_sync_worker.py`, lines 37–55) -/

/-- An opaque Python exception value. -/
structure PyErr where
  msg : String
deriving DecidableEq, Repr

/-- A row of the Identity Store query in `sync_all_users`
(`select(User.id, lower(User.username), User.username)`): we keep the two
fields the comprehension uses. A SQL `NULL` / empty username is embedded
as the empty string, which is exactly what Python truthiness tests. -/
structure DbRow where
  id : Int
  username : String
deriving DecidableEq, Repr

/-- The dict `{'user_id': ..., 'username': ...}` built by `sync_all_users`
and handed to `auth_service.sync_users`. -/
structure PyUser where
  user_id : Int
  username : String
deriving DecidableEq, Repr

/-- Behaviour of the user auth service (Shared Cache Tier façade) as seen by
the sync worker: availability, and the `sync_users` call, which may raise. -/
structure AuthService where
  available : Bool
  syncUsers : List PyUser → Except PyErr Nat

/-- Environment of one `sync_all_users` call: the auth service (absent when
`get_user_auth_service()` returns `None`) and the Identity Store read, which
may raise. -/
structure SyncEnv where
  auth : Option AuthService
  listUsers : Except PyErr (List DbRow)

/-- Observable side effects of one `sync_all_users` call. -/
inductive SyncEffect
  | storeRead
  | syncCall (users : List PyUser)

/-- The user list built by the comprehension in `sync_all_users`
(lines 48–51): keep rows whose raw `username` is truthy (non-empty),
then strip each kept username. -/
def buildUsers (rows : List DbRow) : List PyUser :=
  (rows.filter (fun r => r.username ≠ "")).map
    (fun r => { user_id := r.id, username := pyStrip r.username })

/-- `UserSyncWorker.sync_all_users` (lines 37–55). The outer `Except` is
what reaches the caller; the `try`/`except Exception: return 0` around the
store read and the `sync_users` call is translated into the two
`.error → .ok 0` branches. The effect list records the Identity Store read
and the delegation to `sync_users`. -/
def sync_all_users (env : SyncEnv) : Except PyErr Nat × List SyncEffect :=
  match env.auth with
  | none => (Except.ok 0, [])
  | some auth =>
    if auth.available then
      match env.listUsers with
      | Except.error _ => (Except.ok 0, [SyncEffect.storeRead])
      | Except.ok rows =>
        let users := buildUsers rows
        match auth.syncUsers users with
        | Except.error _ =>
            (Except.ok 0, [SyncEffect.storeRead, SyncEffect.syncCall users])
        | Except.ok n =>
            (Except.ok n, [SyncEffect.storeRead, SyncEffect.syncCall users])
    else (Except.ok 0, [])

/-- The users `sync_all_users` delegated to the auth service's `sync_users`
in a given run (empty when it never reached the call). -/
def delegatedUsers (env : SyncEnv) : List PyUser :=
  (sync_all_users env).2.foldr
    (fun e acc => match e with
      | SyncEffect.syncCall users => users ++ acc
      | SyncEffect.storeRead => acc) []

theorem sync_all_users_no_auth (env : SyncEnv) (h : env.auth = none) :
    sync_all_users env = (Except.ok 0, []) := by
  unfold sync_all_users; rw [h]

theorem sync_all_users_unavailable (env : SyncEnv) (a : AuthService)
    (ha : env.auth = some a) (hav : a.available = false) :
    sync_all_users env = (Except.ok 0, []) := by
  unfold sync_all_users; rw [ha]; simp [hav]

theorem sync_all_users_store_error (env : SyncEnv) (a : AuthService)
    (e : PyErr) (ha : env.auth = some a) (hav : a.available = true)
    (he : env.listUsers = Except.error e) :
    sync_all_users env = (Except.ok 0, [SyncEffect.storeRead]) := by
  unfold sync_all_users; rw [ha, he]; simp [hav]

theorem sync_all_users_ok_rows (env : SyncEnv) (a : AuthService)
    (rows : List DbRow) (ha : env.auth = some a) (hav : a.available = true)
    (hrows : env.listUsers = Except.ok rows) :
    sync_all_users env =
      match a.syncUsers (buildUsers rows) with
      | Except.error _ =>
          (Except.ok 0,
           [SyncEffect.storeRead, SyncEffect.syncCall (buildUsers rows)])
      | Except.ok n =>
          (Except.ok n,
           [SyncEffect.storeRead, SyncEffect.syncCall (buildUsers rows)]) := by
  unfold sync_all_users; rw [ha, hrows]; simp [hav]

/-! ## Pinned-user cache (`app/services/user_service.py`) -/

/-- A row of the `User` table in the Identity Store. -/
structure DbUser where
  id : Int
  username : String
deriving DecidableEq, Repr

/-- A value of `UserService._cache`: `{"user_id": ..., "username": ...,
"expires_at": float('inf')}`; the never-expiring timestamp carries no
information, so only the first two fields are kept. -/
structure CacheEntry where
  user_id : Int
  username : String
deriving DecidableEq, Repr

/-- `self._pinned_users = {u.lower() for u in Config.PINNED_USERS}`
(line 27): the allow-list lowercased, as a duplicate-free list. -/
def pinnedUsers (cfg : List String) : List String :=
  (cfg.map pyLower).dedup

/-- The query in `_preload_pinned_users` (lines 53–55):
`select(User).where(lower(User.username) == username).scalar_one_or_none()`.
`scalar_one_or_none` yields the row when exactly one matches; no match
yields `None`, several matches raise, and the surrounding
`except Exception: pass` turns that raise into "no entry", so both
non-singleton cases are embedded as `none`. -/
def findByLowerUsername (db : List DbUser) (uname : String) : Option DbUser :=
  match db.filter (fun r => pyLower r.username = uname) with
  | [r] => some r
  | _ => none

/-- `UserService._preload_pinned_users` (lines 47–67): for each pinned
(lowercased) username found in the Identity Store, insert a never-expiring
cache entry under that username. The dict is embedded as a function
updated per iteration. -/
def preloadPinnedUsers (cfg : List String) (db : List DbUser) :
    String → Option CacheEntry :=
  (pinnedUsers cfg).foldl
    (fun cache uname =>
      match findByLowerUsername db uname with
      | some row =>
          fun k => if k = uname
            then some { user_id := row.id, username := row.username }
            else cache k
      | none => cache)
    (fun _ => none)

/-- The `UserService` state after startup: the pinned allow-list and the
preloaded cache. -/
structure UserServiceState where
  pinned : List String
  cache : String → Option CacheEntry

/-- `UserService` as configured by `__init__` and filled by `start()`. -/
def mkUserService (cfg : List String) (db : List DbUser) : UserServiceState :=
  { pinned := pinnedUsers cfg, cache := preloadPinnedUsers cfg db }

/-- `UserService._get_from_cache` (lines 77–86): `None` unless the
normalized name is pinned; otherwise the cache entry, if any. -/
def getFromCache (svc : UserServiceState) (normalized : String) :
    Option CacheEntry :=
  if normalized ∈ svc.pinned then svc.cache normalized else none

/-- The Shared Cache Tier as seen by resolution: availability and a
username → user-id lookup. -/
structure TierState where
  available : Bool
  get : String → Option Int

/-- Modelled from the spec: the `resolve` entry point lives in
`app/services/user_auth_service.py`, which is absent from the sources; spec
§4.1 defines it as: normalize the username (reject → `not_found`), check
the Pinned-User Cache first, on miss query the Shared Cache Tier only if it
reports itself available, otherwise `not_found`. The pinned-cache check is
the in-source `_get_from_cache` after `_normalize`. -/
def resolve (svc : UserServiceState) (tier : TierState)
    (username : Option String) : Option Int :=
  match normalize username with
  | none => none
  | some n =>
    match getFromCache svc n with
    | some entry => some entry.user_id
    | none => if tier.available then tier.get n else none

theorem preloadAux_not_mem (db : List DbUser) :
    ∀ (l : List String) (cache : String → Option CacheEntry) (k : String),
      k ∉ l →
      (l.foldl
        (fun cache uname =>
          match findByLowerUsername db uname with
          | some row =>
              fun j => if j = uname
                then some { user_id := row.id, username := row.username }
                else cache j
          | none => cache)
        cache) k = cache k := by
  intro l
  induction l with
  | nil => intro cache k _; rfl
  | cons x xs ih =>
    intro cache k hk
    have hx : k ≠ x := fun h => hk (h ▸ List.mem_cons_self x xs)
    have hxs : k ∉ xs := fun h => hk (List.mem_cons_of_mem x h)
    simp only [List.foldl_cons]
    rw [ih _ k hxs]
    cases hfind : findByLowerUsername db x with
    | none => rfl
    | some row => simp [hx]

theorem preloadAux_mem (db : List DbUser) :
    ∀ (l : List String) (cache : String → Option CacheEntry) (k : String)
      (row : DbUser), k ∈ l → findByLowerUsername db k = some row →
      (l.foldl
        (fun cache uname =>
          match findByLowerUsername db uname with
          | some row =>
              fun j => if j = uname
                then some { user_id := row.id, username := row.username }
                else cache j
          | none => cache)
        cache) k = some { user_id := row.id, username := row.username } := by
  intro l
  induction l with
  | nil => intro cache k row hk _; exact absurd hk (List.not_mem_nil k)
  | cons x xs ih =>
    intro cache k row hk hfind
    simp only [List.foldl_cons]
    by_cases hxs : k ∈ xs
    · exact ih _ k row hxs hfind
    · have hx : k = x := by
        rcases List.mem_cons.1 hk with h | h
        · exact h
        · exact absurd h hxs
      subst hx
      rw [preloadAux_not_mem db xs _ k hxs, hfind]
      simp

/-- Lookup of a pinned username in the preloaded cache equals the Identity
Store lookup used to fill it. -/
theorem preloadPinnedUsers_eq_find (cfg : List String) (db : List DbUser)
    (k : String) (row : DbUser) (hmem : k ∈ pinnedUsers cfg)
    (hfind : findByLowerUsername db k = some row) :
    preloadPinnedUsers cfg db k =
      some { user_id := row.id, username := row.username } :=
  preloadAux_mem db (pinnedUsers cfg) _ k row hmem hfind

/-! ## Directory Sync Worker lifecycle
(`app/services/user_sync_worker.py`, lines 10–59) -/

/-- The default `sync_interval` of `UserSyncWorker.__init__` (line 11). -/
def defaultSyncInterval : Nat := 300

/-- The join timeout used by `UserSyncWorker.stop` (line 34). -/
def stopJoinTimeout : Nat := 5

/-- Lifecycle state of a `UserSyncWorker`: `thread = none` when
`self._thread is None`, `some alive` otherwise with the thread's
`is_alive()` flag; `stopSet` is `self._stop_event.is_set()`. -/
structure WorkerState where
  syncInterval : Nat
  thread : Option Bool
  stopSet : Bool
deriving DecidableEq, Repr

/-- `UserSyncWorker()` as built at module import (line 62). -/
def initialWorker : WorkerState :=
  { syncInterval := defaultSyncInterval, thread := none, stopSet := false }

/-- Observable actions of the worker's lifecycle methods and loop. -/
inductive WorkerEvent
  | clearStop
  | syncRun
  | spawnThread
  | waitInterval (secs : Nat)
  | setStop
  | joinThread (timeoutSecs : Nat)
deriving DecidableEq, Repr

/-- `UserSyncWorker.start` (lines 16–28): a no-op when the loop thread is
alive; otherwise clear the stop event, run one synchronous
`sync_all_users`, then spawn the loop thread. -/
def workerStart (w : WorkerState) : List WorkerEvent × WorkerState :=
  match w.thread with
  | some true => ([], w)
  | _ =>
    ([WorkerEvent.clearStop, WorkerEvent.syncRun, WorkerEvent.spawnThread],
     { w with thread := some true, stopSet := false })

/-- `UserSyncWorker.stop` (lines 30–35): a no-op when `self._thread` is
`None`; otherwise set the stop event, join with a 5-second timeout and
drop the thread reference. -/
def workerStop (w : WorkerState) : List WorkerEvent × WorkerState :=
  match w.thread with
  | none => ([], w)
  | some _ =>
    ([WorkerEvent.setStop, WorkerEvent.joinThread stopJoinTimeout],
     { w with thread := none, stopSet := true })

/-- `UserSyncWorker._sync_loop` (lines 57–59), as a trace indexed by the
outcomes of the successive `self._stop_event.wait(self.sync_interval)`
calls (`true` = stop flag observed, loop exits; `false` = full interval
elapsed, loop re-syncs). Every wait uses the fixed `sync_interval`. -/
def syncLoopTrace (interval : Nat) : List Bool → List WorkerEvent
  | [] => []
  | stopped :: rest =>
    WorkerEvent.waitInterval interval ::
      (if stopped then []
       else WorkerEvent.syncRun :: syncLoopTrace interval rest)

/-- Number of `syncRun` events in a trace. -/
def countSyncs (trace : List WorkerEvent) : Nat :=
  (trace.filter (fun e => e = WorkerEvent.syncRun)).length

/-- Number of waits before the first observed stop in a wait schedule. -/
def falsePrefixLen : List Bool → Nat
  | [] => 0
  | stopped :: rest => if stopped then 0 else falsePrefixLen rest + 1

/-! ## Stale-connection reaper (`app/__init__.py`, lines 159–177) -/

/-- The sleep between reaper ticks (`time.sleep(60)`, line 171). -/
def reaperTickSecs : Nat := 60

/-- The staleness timeout passed to `cleanup_stale_connections`
(`timeout_seconds=120`, line 172). -/
def reaperTimeoutSecs : Nat := 120

/-- A registry entry as the reaper sees it: its id and the last-activity
timestamp (integer seconds). -/
structure SseConn where
  connId : String
  lastActivity : Int
deriving DecidableEq, Repr

/-- Modelled from the spec: `sse_manager.cleanup_stale_connections` lives in
`app/sse_manager.py`, which is absent from the sources; spec §4.4 defines
one tick as: compute `cutoff = now - timeout` and evict every registry
entry whose `last_activity < cutoff`. -/
def cleanup_stale_connections (now timeoutSeconds : Int)
    (registry : List SseConn) : List SseConn :=
  registry.filter (fun c => ¬ c.lastActivity < now - timeoutSeconds)

/-- Observable actions of one reaper loop iteration. -/
inductive ReaperEvent
  | sleep (secs : Nat)
  | cleanupOk (timeoutSecs : Nat)
  | errorCaught
deriving DecidableEq, Repr

/-- The body of `cleanup_loop` (lines 169–174) over a schedule of tick
outcomes (`.ok` = the tick ran, `.error` = `time.sleep` or the cleanup
raised): `while True` with the whole body inside `try`/`except`, so an
error is logged and the loop continues with the next iteration. -/
def cleanupLoopTrace : List (Except PyErr Unit) → List ReaperEvent
  | [] => []
  | Except.ok _ :: rest =>
    ReaperEvent.sleep reaperTickSecs ::
      ReaperEvent.cleanupOk reaperTimeoutSecs :: cleanupLoopTrace rest
  | Except.error _ :: rest =>
    ReaperEvent.errorCaught :: cleanupLoopTrace rest

/-! ## Application startup (`app/__init__.py`, lines 47–88 and
`app/services/user_service.py`, lines 29–37) -/

/-- The outcomes of the startup steps inside `create_app`'s `try` block
(lines 74–82), in program order: `init_db`, `user_service.start()`,
`init_cache_service`, `init_user_auth_service`, `user_sync_worker.start()`,
`_preload_pinned_users_to_redis`, `_preload_exchange_rates_to_redis`.
Each may raise. -/
structure StartupEnv where
  steps : List (Except PyErr Unit)

/-- Run the startup steps in order, stopping at the first raise; the result
is the exception that escaped the sequence, if any. -/
def runStartupSteps : List (Except PyErr Unit) → Option PyErr
  | [] => none
  | Except.ok _ :: rest => runStartupSteps rest
  | Except.error e :: _ => some e

/-- The Flask application object built by `create_app`; blueprint
registration (lines 64–68) precedes the guarded initialization. -/
structure FlaskApp where
  registered : Bool
deriving DecidableEq, Repr

/-- `create_app` (lines 47–88): the initialization sequence is wrapped in
`try`/`except Exception: logging.error(...)` — an escaping exception is
logged, after which the reaper thread is started and the application
object is returned. The result is the logged startup error (if any)
paired with what reaches `create_app`'s caller. -/
def create_app (env : StartupEnv) : Option PyErr × Except PyErr FlaskApp :=
  match runStartupSteps env.steps with
  | none => (none, Except.ok { registered := true })
  | some e => (some e, Except.ok { registered := true })

/-- `UserService.start` (lines 29–37): `_preload_pinned_users` wrapped in
`try`/`except Exception: logging.warning(...)`; a raising preload yields a
warning, never an exception to the caller. -/
def userServiceStart (preload : Except PyErr Unit) :
    Option PyErr × Except PyErr Unit :=
  match preload with
  | Except.ok _ => (none, Except.ok ())
  | Except.error e => (some e, Except.ok ())

/-! ## Claim theorems -/

/-- C1: `_normalize` maps `None` to `None`; on a string it first strips
surrounding whitespace, rejects the result (yielding `None`) exactly when
it is empty or longer than 64 characters, and otherwise returns the
stripped string lowercased; in particular a whitespace-only string is
rejected. -/
theorem C1_normalize_spec (u : String) :
    normalize none = none ∧
    (normalize (some u) = none ↔
      (pyStrip u).length = 0 ∨ (pyStrip u).length > 64) ∧
    (¬ ((pyStrip u).length = 0 ∨ (pyStrip u).length > 64) →
      normalize (some u) = some (pyLower (pyStrip u))) ∧
    ((∀ c ∈ u.data, isPySpace c) → normalize (some u) = none) := by
  refine ⟨rfl, ?_, ?_, ?_⟩
  · unfold normalize
    by_cases h : (pyStrip u).length = 0 ∨ (pyStrip u).length > 64
    · simp [h]
    · simp [h]
  · intro h
    unfold normalize
    simp [h]
  · intro h
    unfold normalize
    have hz : (pyStrip u).length = 0 := by
      rw [pyStrip_of_all_space h]; rfl
    simp [hz]

theorem C1_normalize_spec_witness :
    normalize (some "  Alice  ") = some (pyLower (pyStrip "  Alice  ")) :=
  (C1_normalize_spec "  Alice  ").2.2.1 (by decide)

/-- C2: when the auth service is absent or the Shared Cache Tier reports
itself unavailable, `sync_all_users` returns 0 with an empty effect trace:
no Identity Store read, no delegation to `sync_users` (hence no cache
entries written), and no exception. -/
theorem C2_sync_unavailable (env : SyncEnv)
    (h : env.auth = none ∨ ∃ a, env.auth = some a ∧ a.available = false) :
    sync_all_users env = (Except.ok 0, []) := by
  rcases h with h | ⟨a, ha, hav⟩
  · unfold sync_all_users; rw [h]
  · unfold sync_all_users; rw [ha]; simp [hav]

theorem C2_sync_unavailable_witness :
    sync_all_users { auth := none, listUsers := Except.ok [] } =
      (Except.ok 0, []) :=
  C2_sync_unavailable _ (Or.inl rfl)

/-- C10: `start()` on a worker whose loop thread is already alive is a
no-op: no events (so no additional synchronous sync and no second thread
spawned) and an unchanged state, so at most one loop thread exists. -/
theorem C10_start_alive_noop (interval : Nat) (stopFlag : Bool) :
    workerStart ⟨interval, some true, stopFlag⟩ =
      ([], ⟨interval, some true, stopFlag⟩) ∧
    countSyncs (workerStart ⟨interval, some true, stopFlag⟩).1 = 0 ∧
    WorkerEvent.spawnThread ∉ (workerStart ⟨interval, some true, stopFlag⟩).1 := by
  refine ⟨rfl, rfl, ?_⟩
  intro h
  simp [workerStart] at h

/-- C8: `stop()` on a running worker sets the stop flag and joins the loop
thread with the bounded 5-second timeout (so it never blocks indefinitely),
after which the thread reference is dropped; setting the flag makes the
loop's interruptible wait exit immediately with no further sync; `stop()`
on a worker that is not running is a no-op. -/
theorem C8_stop_bounded (interval : Nat) (alive stopFlag : Bool)
    (rest : List Bool) :
    workerStop ⟨interval, some alive, stopFlag⟩ =
      ([WorkerEvent.setStop, WorkerEvent.joinThread stopJoinTimeout],
       ⟨interval, none, true⟩) ∧
    stopJoinTimeout = 5 ∧
    syncLoopTrace interval (true :: rest) =
      [WorkerEvent.waitInterval interval] ∧
    workerStop ⟨interval, none, stopFlag⟩ = ([], ⟨interval, none, stopFlag⟩) := by
  refine ⟨rfl, rfl, ?_, rfl⟩
  unfold syncLoopTrace
  simp

/-- C3: for a username whose normal form is pinned and was found in the
Identity Store at startup (so it was preloaded), `resolve` returns the
preloaded id for every Shared Cache Tier state — the lookup trims
whitespace and is case-insensitive via `pyLower`. -/
theorem C3_pinned_resolve (cfg : List String) (db : List DbUser)
    (u : String) (tier : TierState) (row : DbUser)
    (hne : (pyStrip u).length ≠ 0) (hlen : (pyStrip u).length ≤ 64)
    (hpin : pyLower (pyStrip u) ∈ pinnedUsers cfg)
    (hfound : findByLowerUsername db (pyLower (pyStrip u)) = some row) :
    resolve (mkUserService cfg db) tier (some u) = some row.id := by
  have hnorm : normalize (some u) = some (pyLower (pyStrip u)) := by
    unfold normalize
    have : ¬ ((pyStrip u).length = 0 ∨ (pyStrip u).length > 64) := by
      push_neg; exact ⟨hne, by omega⟩
    simp [this]
  have hcache : getFromCache (mkUserService cfg db) (pyLower (pyStrip u)) =
      some { user_id := row.id, username := row.username } := by
    unfold getFromCache mkUserService
    simp only [if_pos hpin]
    exact preloadPinnedUsers_eq_find cfg db _ row hpin hfound
  simp [resolve, hnorm, hcache]

theorem C3_pinned_resolve_witness :
    resolve (mkUserService ["alice"] [⟨7, "alice"⟩])
        { available := false, get := fun _ => none } (some "ALICE") = some 7 ∧
    resolve (mkUserService ["alice"] [⟨7, "alice"⟩])
        { available := true, get := fun _ => none } (some "ALICE") = some 7 :=
  ⟨C3_pinned_resolve ["alice"] [⟨7, "alice"⟩] "ALICE" _ ⟨7, "alice"⟩
      (by decide) (by decide) (by decide) (by decide),
   C3_pinned_resolve ["alice"] [⟨7, "alice"⟩] "ALICE" _ ⟨7, "alice"⟩
      (by decide) (by decide) (by decide) (by decide)⟩

/-- C4: `sync_all_users` never propagates an exception: for every
environment it returns `ok` with some integer, and when the Identity Store
read or the tier's `sync_users` call raises, the result is `ok 0`. -/
theorem C4_no_exception (env : SyncEnv) :
    (∃ n : Nat, (sync_all_users env).1 = Except.ok n) ∧
    (∀ a, env.auth = some a → a.available = true →
      ∀ e, env.listUsers = Except.error e →
      (sync_all_users env).1 = Except.ok 0) ∧
    (∀ a rows, env.auth = some a → a.available = true →
      env.listUsers = Except.ok rows →
      ∀ e, a.syncUsers (buildUsers rows) = Except.error e →
      (sync_all_users env).1 = Except.ok 0) := by
  refine ⟨?_, ?_, ?_⟩
  · cases hauth : env.auth with
    | none => exact ⟨0, by rw [sync_all_users_no_auth env hauth]⟩
    | some a =>
      cases hav : a.available with
      | false => exact ⟨0, by rw [sync_all_users_unavailable env a hauth hav]⟩
      | true =>
        cases hrows : env.listUsers with
        | error e =>
          exact ⟨0, by rw [sync_all_users_store_error env a e hauth hav hrows]⟩
        | ok rows =>
          cases hsync : a.syncUsers (buildUsers rows) with
          | error e =>
            exact ⟨0, by
              rw [sync_all_users_ok_rows env a rows hauth hav hrows, hsync]⟩
          | ok n =>
            exact ⟨n, by
              rw [sync_all_users_ok_rows env a rows hauth hav hrows, hsync]⟩
  · intro a ha hav e he
    rw [sync_all_users_store_error env a e ha hav he]
  · intro a rows ha hav hrows e hsync
    rw [sync_all_users_ok_rows env a rows ha hav hrows, hsync]

theorem C4_no_exception_witness :
    (sync_all_users
      { auth := some { available := true,
                       syncUsers := fun _ => Except.error ⟨"boom"⟩ },
        listUsers := Except.ok [⟨1, "a"⟩] }).1 = Except.ok 0 :=
  (C4_no_exception _).2.2 _ [⟨1, "a"⟩] rfl rfl rfl ⟨"boom"⟩ rfl

theorem syncLoopTrace_cons_true (interval : Nat) (rest : List Bool) :
    syncLoopTrace interval (true :: rest) =
      [WorkerEvent.waitInterval interval] := rfl

theorem syncLoopTrace_cons_false (interval : Nat) (rest : List Bool) :
    syncLoopTrace interval (false :: rest) =
      WorkerEvent.waitInterval interval :: WorkerEvent.syncRun ::
        syncLoopTrace interval rest := rfl

theorem syncLoopTrace_wait_fixed (interval : Nat) :
    ∀ (sched : List Bool) (s : Nat),
      WorkerEvent.waitInterval s ∈ syncLoopTrace interval sched →
      s = interval := by
  intro sched
  induction sched with
  | nil => intro s h; simp [syncLoopTrace] at h
  | cons b rest ih =>
    intro s h
    cases b with
    | true =>
      rw [syncLoopTrace_cons_true] at h
      simp at h
      exact h
    | false =>
      rw [syncLoopTrace_cons_false] at h
      rcases List.mem_cons.1 h with h | h
      · injection h
      · rcases List.mem_cons.1 h with h | h
        · injection h
        · exact ih s h

theorem countSyncs_nil : countSyncs [] = 0 := rfl

theorem countSyncs_cons (e : WorkerEvent) (t : List WorkerEvent) :
    countSyncs (e :: t) =
      (if e = WorkerEvent.syncRun then 1 else 0) + countSyncs t := by
  unfold countSyncs
  by_cases h : e = WorkerEvent.syncRun
  · simp [h, List.filter]; omega
  · simp [h, List.filter]

theorem countSyncs_syncLoopTrace (interval : Nat) :
    ∀ sched : List Bool,
      countSyncs (syncLoopTrace interval sched) = falsePrefixLen sched := by
  intro sched
  induction sched with
  | nil => rfl
  | cons b rest ih =>
    cases b with
    | true =>
      rw [syncLoopTrace_cons_true]
      simp [countSyncs_cons, countSyncs_nil, falsePrefixLen]
    | false =>
      rw [syncLoopTrace_cons_false]
      simp [countSyncs_cons, ih, falsePrefixLen]
      omega

/-- C6: starting a worker with no live loop thread first clears the stop
flag, completes exactly one synchronous sync, and only then spawns the loop
thread; the loop then waits the fixed `sync_interval` (no backoff, default
300 seconds) before each re-sync and performs exactly one sync per elapsed
interval until the stop flag is observed. -/
theorem C6_start_one_sync_then_loop (interval : Nat)
    (stopFlag deadThread : Bool) (sched : List Bool) :
    (workerStart
        ⟨interval, if deadThread then some false else none, stopFlag⟩).1 =
      [WorkerEvent.clearStop, WorkerEvent.syncRun, WorkerEvent.spawnThread] ∧
    countSyncs (workerStart
        ⟨interval, if deadThread then some false else none, stopFlag⟩).1 = 1 ∧
    (workerStart
        ⟨interval, if deadThread then some false else none, stopFlag⟩).2 =
      ⟨interval, some true, false⟩ ∧
    (∀ s, WorkerEvent.waitInterval s ∈ syncLoopTrace interval sched →
      s = interval) ∧
    countSyncs (syncLoopTrace interval sched) = falsePrefixLen sched ∧
    initialWorker.syncInterval = defaultSyncInterval ∧
    defaultSyncInterval = 300 := by
  refine ⟨?_, ?_, ?_, syncLoopTrace_wait_fixed interval sched,
    countSyncs_syncLoopTrace interval sched, rfl, rfl⟩ <;>
    cases deadThread <;> rfl

theorem cleanupLoopTrace_sleep_fixed :
    ∀ (outcomes : List (Except PyErr Unit)) (s : Nat),
      ReaperEvent.sleep s ∈ cleanupLoopTrace outcomes → s = reaperTickSecs := by
  intro outcomes
  induction outcomes with
  | nil => intro s h; simp [cleanupLoopTrace] at h
  | cons o rest ih =>
    intro s h
    cases o with
    | ok _ =>
      rcases List.mem_cons.1 h with h | h
      · injection h
      · rcases List.mem_cons.1 h with h | h
        · injection h
        · exact ih s h
    | error e =>
      rcases List.mem_cons.1 h with h | h
      · injection h
      · exact ih s h

theorem cleanupLoopTrace_timeout_fixed :
    ∀ (outcomes : List (Except PyErr Unit)) (t : Nat),
      ReaperEvent.cleanupOk t ∈ cleanupLoopTrace outcomes →
      t = reaperTimeoutSecs := by
  intro outcomes
  induction outcomes with
  | nil => intro t h; simp [cleanupLoopTrace] at h
  | cons o rest ih =>
    intro t h
    cases o with
    | ok _ =>
      rcases List.mem_cons.1 h with h | h
      · injection h
      · rcases List.mem_cons.1 h with h | h
        · injection h
        · exact ih t h
    | error e =>
      rcases List.mem_cons.1 h with h | h
      · injection h
      · exact ih t h

/-- C7: the reaper is periodic with a 60-second tick and passes a
120-second staleness timeout to each cleanup; a raising tick only adds a
caught-error event and the loop continues through the rest of the
schedule; one cleanup keeps exactly the connections whose inactivity does
not exceed the timeout (evicting those with `last_activity < now - 120`). -/
theorem C7_reaper_spec (outcomes : List (Except PyErr Unit)) (err : PyErr)
    (now : Int) (registry : List SseConn) :
    reaperTickSecs = 60 ∧ reaperTimeoutSecs = 120 ∧
    (∀ s, ReaperEvent.sleep s ∈ cleanupLoopTrace outcomes → s = 60) ∧
    (∀ t, ReaperEvent.cleanupOk t ∈ cleanupLoopTrace outcomes → t = 120) ∧
    cleanupLoopTrace (Except.error err :: outcomes) =
      ReaperEvent.errorCaught :: cleanupLoopTrace outcomes ∧
    (∀ c, c ∈ cleanup_stale_connections now 120 registry ↔
      c ∈ registry ∧ ¬ c.lastActivity < now - 120) := by
  refine ⟨rfl, rfl, cleanupLoopTrace_sleep_fixed outcomes,
    cleanupLoopTrace_timeout_fixed outcomes, rfl, ?_⟩
  intro c
  unfold cleanup_stale_connections
  simp [List.mem_filter]

/-- C9: every failure among the startup preloads is caught: `create_app`
logs the first escaping exception and still returns the application
object, and `UserService.start` turns a raising `_preload_pinned_users`
into a logged warning rather than an exception. -/
theorem C9_startup_best_effort (env : StartupEnv) :
    (∃ logged, create_app env =
      (logged, Except.ok { registered := true })) ∧
    (∀ e, runStartupSteps env.steps = some e →
      create_app env = (some e, Except.ok { registered := true })) ∧
    (∀ e, userServiceStart (Except.error e) = (some e, Except.ok ())) ∧
    userServiceStart (Except.ok ()) = (none, Except.ok ()) := by
  refine ⟨?_, ?_, fun e => rfl, rfl⟩
  · unfold create_app
    cases h : runStartupSteps env.steps with
    | none => exact ⟨none, rfl⟩
    | some e => exact ⟨some e, rfl⟩
  · intro e he
    unfold create_app
    rw [he]

theorem C9_startup_best_effort_witness :
    create_app { steps := [Except.error ⟨"db down"⟩] } =
      (some ⟨"db down"⟩, Except.ok { registered := true }) :=
  (C9_startup_best_effort { steps := [Except.error ⟨"db down"⟩] }).2.1
    ⟨"db down"⟩ rfl

theorem delegatedUsers_ok_rows (env : SyncEnv) (a : AuthService)
    (rows : List DbRow) (ha : env.auth = some a) (hav : a.available = true)
    (hrows : env.listUsers = Except.ok rows) :
    delegatedUsers env = buildUsers rows := by
  unfold delegatedUsers
  rw [sync_all_users_ok_rows env a rows ha hav hrows]
  cases hsync : a.syncUsers (buildUsers rows) <;> simp

/-- C5 counterexample: the claim says a user whose username consists only
of whitespace is discarded and not delegated to `sync`; in the code the
comprehension filters on the raw username's truthiness before stripping,
so the row `{id := 1, username := " "}` passes the filter and is delegated
with the empty stripped username. -/
theorem C5_counterexample :
    delegatedUsers
      { auth := some { available := true,
                       syncUsers := fun us => Except.ok us.length },
        listUsers := Except.ok [{ id := 1, username := " " }] } =
      [{ user_id := 1, username := "" }] ∧
    delegatedUsers
      { auth := some { available := true,
                       syncUsers := fun us => Except.ok us.length },
        listUsers := Except.ok [{ id := 1, username := " " }] } ≠ [] := by
  constructor
  · rw [delegatedUsers_ok_rows _ _ [{ id := 1, username := " " }] rfl rfl rfl]
    decide
  · rw [delegatedUsers_ok_rows _ _ [{ id := 1, username := " " }] rfl rfl rfl]
    decide

/-- C5 (amended): when the tier is available and the Identity Store read
succeeds, `sync_all_users` discards exactly the users whose raw username is
empty (before any trimming) and delegates the remaining users with their
usernames trimmed; in particular every delegated user comes from a row
with a non-empty raw username and carries its stripped username. -/
theorem C5_trim_and_filter (env : SyncEnv) (a : AuthService)
    (rows : List DbRow) (ha : env.auth = some a) (hav : a.available = true)
    (hrows : env.listUsers = Except.ok rows) :
    delegatedUsers env =
      (rows.filter (fun r => r.username ≠ "")).map
        (fun r => { user_id := r.id, username := pyStrip r.username }) ∧
    (∀ u ∈ delegatedUsers env, ∃ r ∈ rows, r.username ≠ "" ∧
      u = { user_id := r.id, username := pyStrip r.username }) := by
  have h := delegatedUsers_ok_rows env a rows ha hav hrows
  constructor
  · rw [h]; rfl
  · intro u hu
    rw [h] at hu
    unfold buildUsers at hu
    rcases List.mem_map.1 hu with ⟨r, hr, hmap⟩
    rcases List.mem_filter.1 hr with ⟨hrmem, hru⟩
    exact ⟨r, hrmem, by simpa using hru, hmap.symm⟩

theorem C5_trim_and_filter_witness :
    delegatedUsers
      { auth := some { available := true,
                       syncUsers := fun us => Except.ok us.length },
        listUsers := Except.ok
          [{ id := 1, username := " " }, { id := 2, username := "" },
           { id := 3, username := " bob " }] } =
      [{ user_id := 1, username := "" }, { user_id := 3, username := "bob" }] := by
  rw [(C5_trim_and_filter _ _
    [{ id := 1, username := " " }, { id := 2, username := "" },
     { id := 3, username := " bob " }] rfl rfl rfl).1]
  decide

theorem C6_start_one_sync_then_loop_witness :
    countSyncs (syncLoopTrace 300 [false, false, true]) = 2 :=
  ((C6_start_one_sync_then_loop 300 false false
      [false, false, true]).2.2.2.2.1).trans (by decide)

theorem C7_reaper_spec_witness :
    ((⟨"c2", 150⟩ : SseConn) ∈
        cleanup_stale_connections 200 120 [⟨"c1", 0⟩, ⟨"c2", 150⟩] ↔
      (⟨"c2", 150⟩ : SseConn) ∈ [(⟨"c1", 0⟩ : SseConn), ⟨"c2", 150⟩] ∧
        ¬ (⟨"c2", 150⟩ : SseConn).lastActivity < 200 - 120) :=
  (C7_reaper_spec [] ⟨"e"⟩ 200 [⟨"c1", 0⟩, ⟨"c2", 150⟩]).2.2.2.2.2 ⟨"c2", 150⟩

theorem C8_stop_bounded_witness :
    workerStop ⟨300, some true, false⟩ =
      ([WorkerEvent.setStop, WorkerEvent.joinThread stopJoinTimeout],
       ⟨300, none, true⟩) :=
  (C8_stop_bounded 300 true false []).1

theorem C10_start_alive_noop_witness :
    workerStart ⟨300, some true, false⟩ = ([], ⟨300, some true, false⟩) :=
  (C10_start_alive_noop 300 false).1

end SystemMain
